import Mathlib

/-
  Verification of the KPI and aggregation logic of
  src/benefits_compliance_tracker.py (Employee Benefits Compliance
  Tracker).

  The tabular data model (pandas DataFrames in the source) is embedded as
  Lean lists of records; dates are embedded as integers counting days, with
  a missing date (NaT in pandas) embedded as none.  Percentage KPIs, which
  the source computes with Python arithmetic, are embedded over the
  rationals.  Each definition mirrors one line range of the source, noted
  in its doc comment.
-/

/-- A row of the employees table (source lines 86-94). -/
structure EmployeeRow where
  employee_id : Nat
  first_name : String
  last_name : String
  email : String
  department_id : Nat
  hire_date : Int
  employment_status : String
deriving DecidableEq, Repr

/-- A row of the departments table (source lines 79-82). -/
structure DepartmentRow where
  department_id : Nat
  department_name : String
deriving DecidableEq, Repr

/-- A row of the benefits plans table (source lines 97-103). -/
structure PlanRow where
  plan_id : Nat
  plan_name : String
  plan_type : String
  premium_cost : Nat
  employer_contribution : Nat
deriving DecidableEq, Repr

/-- A row of the benefits enrollment table (source lines 114-122).  The
    three date columns may be missing (pd.NaT) when data is loaded from
    CSV files, hence Option. -/
structure EnrollmentRow where
  enrollment_id : Nat
  employee_id : Nat
  plan_id : Nat
  enrollment_date : Option Int
  election_deadline : Option Int
  plan_start_date : Option Int
  enrollment_status : String
deriving DecidableEq, Repr

/-- A row of the eligibility table (source lines 128-135). -/
structure EligibilityRow where
  eligibility_id : Nat
  employee_id : Nat
  eligibility_start_date : Int
  eligibility_end_date : Option Int
  benefit_category : String
  is_active : Nat
deriving DecidableEq, Repr

/-- A row of the compliance exceptions table (source lines 144-152). -/
structure ExceptionRow where
  exception_id : Nat
  employee_id : Nat
  exception_type : String
  exception_date : Option Int
  severity_level : String
  resolution_status : String
  resolved_date : Option Int
deriving DecidableEq, Repr

/-
  KPI calculator, source lines 228-246.  Each KPI is a function of the
  tables it reads; the current date (datetime.now().date() in the source)
  is an explicit parameter called today.
-/

/-- Source line 228: number of distinct employee ids among employees whose
    employment_status is Active (pandas nunique is embedded as
    dedup-then-length). -/
def active_employees (emps : List EmployeeRow) : Nat :=
  (((emps.filter (fun e => decide (e.employment_status = "Active"))).map
    (fun e => e.employee_id)).dedup).length

/-- Source line 229: number of distinct employee ids among enrollment rows
    whose enrollment_status is Enrolled.  Note the source does not restrict
    this count to active employees. -/
def enrolled_unique (enr : List EnrollmentRow) : Nat :=
  (((enr.filter (fun r => decide (r.enrollment_status = "Enrolled"))).map
    (fun r => r.employee_id)).dedup).length

/-- Source line 230: count of enrollment rows whose status is Pending. -/
def pendings (enr : List EnrollmentRow) : Nat :=
  enr.countP (fun r => decide (r.enrollment_status = "Pending"))

/-- Source line 232: enrollment_rate, guarded by the Python truthiness test
    on active_employees. -/
def enrollment_rate (emps : List EmployeeRow) (enr : List EnrollmentRow) : ℚ :=
  if active_employees emps ≠ 0 then
    (enrolled_unique enr : ℚ) / (active_employees emps : ℚ) * 100
  else 0

/-- Source lines 234-239: one enrollment row is overdue when its election
    deadline compares strictly below today and its status is not Enrolled.
    A missing deadline (pd.NaT) makes the pandas comparison False. -/
def isOverdue (today : Int) (r : EnrollmentRow) : Bool :=
  (match r.election_deadline with
   | none => false
   | some d => decide (d < today)) && decide (r.enrollment_status ≠ "Enrolled")

/-- Source lines 234-239: number of overdue enrollment rows. -/
def overdue_count (today : Int) (enr : List EnrollmentRow) : Nat :=
  enr.countP (isOverdue today)

/-- Source line 241: count of exception rows with resolution_status Open. -/
def open_ex (exc : List ExceptionRow) : Nat :=
  exc.countP (fun r => decide (r.resolution_status = "Open"))

/-- Source line 242: count of exception rows with resolution_status
    Resolved. -/
def resolved_ex (exc : List ExceptionRow) : Nat :=
  exc.countP (fun r => decide (r.resolution_status = "Resolved"))

/-- Source line 243: exception_resolution_rate, guarded by the Python
    truthiness test on the denominator. -/
def exception_resolution_rate (exc : List ExceptionRow) : ℚ :=
  if open_ex exc + resolved_ex exc ≠ 0 then
    (resolved_ex exc : ℚ) / ((open_ex exc + resolved_ex exc : ℕ) : ℚ) * 100
  else 0

/-- Source line 245: deadline_adherence_rate, guarded by the Python
    truthiness test on the number of enrollment rows. -/
def deadline_adherence_rate (today : Int) (enr : List EnrollmentRow) : ℚ :=
  if enr.length ≠ 0 then
    ((enr.length : ℚ) - (overdue_count today enr : ℚ)) / (enr.length : ℚ) * 100
  else 0

/-- Source line 246: overall_compliance_score, the numpy mean of the three
    rates. -/
def overall_compliance_score (emps : List EmployeeRow) (enr : List EnrollmentRow)
    (exc : List ExceptionRow) (today : Int) : ℚ :=
  (enrollment_rate emps enr + exception_resolution_rate exc +
    deadline_adherence_rate today enr) / 3

/-- Source lines 188-193 (query q_enrollment_status): count of enrollment
    rows carrying a given status. -/
def statusCount (enr : List EnrollmentRow) (s : String) : Nat :=
  enr.countP (fun r => decide (r.enrollment_status = s))

/-
  Department overview query, source lines 206-223.  The query groups by
  department_name; each output row is determined by a department name
  together with the four input tables, and all aggregates are
  COUNT(DISTINCT ...), embedded as dedup counts.
-/

/-- Source lines 207-211 (CTE enrolled): distinct employee ids having at
    least one Enrolled enrollment row. -/
def enrolledIds (enr : List EnrollmentRow) : List Nat :=
  ((enr.filter (fun r => decide (r.enrollment_status = "Enrolled"))).map
    (fun r => r.employee_id)).dedup

/-- Distinct employee ids of the employees attached, through department_id,
    to a department row carrying the given name (the LEFT JOIN of source
    line 218 followed by COUNT(DISTINCT e.employee_id)). -/
def deptEmployeeIds (name : String) (depts : List DepartmentRow)
    (emps : List EmployeeRow) : List Nat :=
  ((emps.filter (fun e =>
      (depts.filter (fun d => decide (d.department_name = name))).any
        (fun d => decide (d.department_id = e.department_id)))).map
    (fun e => e.employee_id)).dedup

/-- Source line 213: total_employees of one department overview row. -/
def dept_total (name : String) (depts : List DepartmentRow)
    (emps : List EmployeeRow) : Nat :=
  (deptEmployeeIds name depts emps).length

/-- Source line 214: enrolled_employees of one department overview row. -/
def dept_enrolled (name : String) (depts : List DepartmentRow)
    (emps : List EmployeeRow) (enr : List EnrollmentRow) : Nat :=
  ((deptEmployeeIds name depts emps).filter
    (fun eid => (enrolledIds enr).contains eid)).length

/-- Rounding to two decimal places, the ROUND(x, 2) of source line 215;
    for the nonnegative values arising here Mathlib round agrees with SQL
    rounding. -/
def round2 (q : ℚ) : ℚ :=
  ((round (q * 100) : ℤ) : ℚ) / 100

/-- Source line 215: the enrollment_rate column of one department overview
    row.  NULLIF makes the denominator NULL when the department has no
    employees, and then the whole expression is NULL, embedded as none. -/
def dept_enrollment_rate (name : String) (depts : List DepartmentRow)
    (emps : List EmployeeRow) (enr : List EnrollmentRow) : Option ℚ :=
  if dept_total name depts emps = 0 then none
  else some (round2 ((dept_enrolled name depts emps enr : ℚ) * 100 /
    (dept_total name depts emps : ℚ)))

/-
  Synthetic data provider, source lines 77-153.  The numpy PRNG (seeded
  once with SEED = 42 at line 39) is embedded abstractly: the seeded
  number stream is a function from draw index to natural number, and each
  np.random call consumes draws in program order.  Weighted choices are
  embedded by thresholds on the draw modulo 100 matching the stated
  probabilities, uniform choices by the draw modulo the number of
  alternatives, and randint(lo, hi) by lo + draw mod (hi - lo).  The
  current date (datetime.now() in the source) is an explicit parameter
  called now, measured in days.
-/

/-- State of the embedded pseudo-random stream: the seed-determined
    stream together with the index of the next draw. -/
structure Rng where
  stream : Nat → Nat
  idx : Nat

/-- Consume one draw from the stream. -/
def Rng.next (g : Rng) : Nat × Rng :=
  (g.stream g.idx, ⟨g.stream, g.idx + 1⟩)

/-- Consume k draws in order, mapping each through f (embeds one numpy
    call that returns an array of k values). -/
def drawSeq (k : Nat) (f : Nat → α) (g : Rng) : List α × Rng :=
  match k with
  | 0 => ([], g)
  | Nat.succ k =>
    let p := g.next
    let rest := drawSeq k f p.2
    (f p.1 :: rest.1, rest.2)

/-- Choose k elements without replacement (np.random.choice with
    replace=False), one draw per element, indexing modulo the remaining
    pool. -/
def pickNoReplace (k : Nat) (xs : List Nat) (g : Rng) : List Nat × Rng :=
  match k with
  | 0 => ([], g)
  | Nat.succ k =>
    if xs.isEmpty then ([], g)
    else
      let p := g.next
      let i := p.1 % xs.length
      let rest := pickNoReplace k (xs.eraseIdx i) p.2
      ((xs.getD i 0) :: rest.1, rest.2)

/-- Source lines 79-82: the constant departments table. -/
def departments_df : List DepartmentRow :=
  [⟨1, "Human Resources"⟩, ⟨2, "Finance"⟩, ⟨3, "Engineering"⟩,
   ⟨4, "Sales"⟩, ⟨5, "Operations"⟩]

/-- Source lines 97-103: the constant plans table. -/
def plans_df : List PlanRow :=
  [⟨1, "Basic Medical", "Medical", 300, 150⟩,
   ⟨2, "Premium Medical", "Medical", 600, 400⟩,
   ⟨3, "Dental Plus", "Dental", 75, 40⟩,
   ⟨4, "Vision Coverage", "Vision", 50, 25⟩,
   ⟨5, "401k Plan", "Retirement", 150, 100⟩]

/-- Source line 88: the first-name pool. -/
def firstNamePool : List String :=
  ["John", "Jane", "Michael", "Sarah", "Robert", "Emily", "James", "Lisa"]

/-- Source line 89: the last-name pool. -/
def lastNamePool : List String :=
  ["Smith", "Johnson", "Williams", "Brown", "Jones", "Garcia", "Miller", "Davis"]

/-- Source line 85: the number of synthetic employees. -/
def n_employees : Nat := 150

/-- Day number of 2018-01-01 (start of the weekly hire_date range of
    source line 92), measured from the epoch used for the day counts. -/
def hireBase : Int := 17532

/-- Source lines 86-94: the synthetic employees table.  Column order of
    the numpy calls: first_name, last_name, department_id,
    employment_status (email and hire_date consume no draws). -/
def genEmployees (g : Rng) : List EmployeeRow × Rng :=
  let fns := drawSeq n_employees (fun d => firstNamePool.getD (d % 8) "") g
  let lns := drawSeq n_employees (fun d => lastNamePool.getD (d % 8) "") fns.2
  let dids := drawSeq n_employees (fun d => d % 5 + 1) lns.2
  let sts := drawSeq n_employees
    (fun d => if d % 100 < 85 then "Active" else "Inactive") dids.2
  ((List.range n_employees).map (fun i =>
    { employee_id := i + 1
      first_name := fns.1.getD i ""
      last_name := lns.1.getD i ""
      email := "user" ++ toString (i + 1) ++ "@example.com"
      department_id := dids.1.getD i 0
      hire_date := hireBase + 7 * (i : Int)
      employment_status := sts.1.getD i "" }), sts.2)

/-- Source line 113: enrollment status with probabilities 0.80, 0.15,
    0.05, embedded as thresholds on the draw modulo 100. -/
def statusFromDraw (d : Nat) : String :=
  if d % 100 < 80 then "Enrolled"
  else if d % 100 < 95 then "Pending" else "Declined"

/-- Source lines 110-122, inner loop: one enrollment record per chosen
    plan; per plan the draws are randint(30, 365) for the enrollment date
    offset, then the status choice. -/
def genPlanRecords (now : Int) (eid : Nat) (nextId : Nat) (pids : List Nat)
    (g : Rng) : List EnrollmentRow × Rng :=
  match pids with
  | [] => ([], g)
  | pid :: rest =>
    let p1 := g.next
    let edate : Int := now - (30 + (p1.1 % 335) : Nat)
    let p2 := p1.2.next
    let st := statusFromDraw p2.1
    let row : EnrollmentRow :=
      { enrollment_id := nextId
        employee_id := eid
        plan_id := pid
        enrollment_date := some edate
        election_deadline := some (edate + 30)
        plan_start_date := if st = "Enrolled" then some (edate + 60) else none
        enrollment_status := st }
    let tail := genPlanRecords now eid (nextId + 1) rest p2.2
    (row :: tail.1, tail.2)

/-- Source lines 106-123, outer loop: for each Active employee, draw
    randint(2, 5) plans and choose that many plan ids without
    replacement. -/
def genEnrollment (now : Int) (emps : List EmployeeRow) (nextId : Nat)
    (g : Rng) : List EnrollmentRow × Rng :=
  match emps with
  | [] => ([], g)
  | e :: rest =>
    if e.employment_status = "Active" then
      let p := g.next
      let numPlans := 2 + p.1 % 3
      let picked := pickNoReplace numPlans (plans_df.map (fun pl => pl.plan_id)) p.2
      let rows := genPlanRecords now e.employee_id nextId picked.1 picked.2
      let tail := genEnrollment now rest (nextId + rows.1.length) rows.2
      (rows.1 ++ tail.1, tail.2)
    else genEnrollment now rest nextId g

/-- Source lines 126-136: the eligibility table, one row per employee,
    consuming no draws; the end date of an Inactive employee is now + 30
    days. -/
def genEligibility (now : Int) (emps : List EmployeeRow) : List EligibilityRow :=
  emps.map (fun e =>
    { eligibility_id := e.employee_id
      employee_id := e.employee_id
      eligibility_start_date := e.hire_date
      eligibility_end_date :=
        if e.employment_status = "Active" then none else some (now + 30)
      benefit_category := "All_Benefits"
      is_active := if e.employment_status = "Active" then 1 else 0 })

/-- Source line 141: the exception-type pool. -/
def exceptionTypePool : List String :=
  ["Missed Enrollment", "Late Election", "Missing Documentation", "Incorrect Data"]

/-- Source line 149: the severity pool. -/
def severityPool : List String :=
  ["Critical", "High", "Medium", "Low"]

/-- Source lines 140-152, loop body: per exception the draws are the
    type choice, randint(0, 90) for the date offset, the resolution
    status (0.6 Open, 0.4 Resolved), the severity choice, and, only when
    Resolved, randint(1, 30) for the resolution delay. -/
def genExceptionRecords (now : Int) (eids : List Nat) (nextId : Nat)
    (g : Rng) : List ExceptionRow × Rng :=
  match eids with
  | [] => ([], g)
  | eid :: rest =>
    let p1 := g.next
    let ty := exceptionTypePool.getD (p1.1 % 4) ""
    let p2 := p1.2.next
    let exDate : Int := now - (p2.1 % 90 : Nat)
    let p3 := p2.2.next
    let st := if p3.1 % 100 < 60 then "Open" else "Resolved"
    let p4 := p3.2.next
    let sev := severityPool.getD (p4.1 % 4) ""
    let rd : Option Int × Rng :=
      if st = "Resolved" then
        let p5 := p4.2.next
        (some (exDate + (1 + p5.1 % 29 : Nat)), p5.2)
      else (none, p4.2)
    let row : ExceptionRow :=
      { exception_id := nextId
        employee_id := eid
        exception_type := ty
        exception_date := some exDate
        severity_level := sev
        resolution_status := st
        resolved_date := rd.1 }
    let tail := genExceptionRecords now rest (nextId + 1) rd.2
    (row :: tail.1, tail.2)

/-- Source lines 139-153: the exceptions table, built for 20 employee ids
    chosen without replacement. -/
def genExceptions (now : Int) (emps : List EmployeeRow) (g : Rng) :
    List ExceptionRow × Rng :=
  let picked := pickNoReplace 20 (emps.map (fun e => e.employee_id)) g
  genExceptionRecords now picked.1 1 picked.2

/-- The six related tables the data provider supplies. -/
structure Tables where
  employees : List EmployeeRow
  departments : List DepartmentRow
  plans : List PlanRow
  enrollment : List EnrollmentRow
  eligibility : List EligibilityRow
  exceptions : List ExceptionRow
deriving DecidableEq

/-- Source lines 77-153: one run of the data provider in synthesize mode.
    The stream argument is the number stream determined by the fixed seed
    (SEED = 42, source lines 38-39), identical across runs; now is the
    current date observed by the run. -/
def synthesize (stream : Nat → Nat) (now : Int) : Tables :=
  let eg := genEmployees ⟨stream, 0⟩
  let ng := genEnrollment now eg.1 1 eg.2
  let xg := genExceptions now eg.1 ng.2
  { employees := eg.1
    departments := departments_df
    plans := plans_df
    enrollment := ng.1
    eligibility := genEligibility now eg.1
    exceptions := xg.1 }

/-
  Predicates and reformulations taken from the wording of the
  specification, for comparison against the definitions above that were
  translated from the source.
-/

/-- One employee id has at least one Enrolled enrollment row. -/
def hasEnrolledRow (enr : List EnrollmentRow) (eid : Nat) : Bool :=
  enr.any (fun r => decide (r.employee_id = eid ∧ r.enrollment_status = "Enrolled"))

/-- Modelled from the wording of the specification (section 4.2), for
    comparison with enrolled_unique: the number of distinct ACTIVE
    employees that have at least one Enrolled enrollment row.  The source
    (line 229) does not restrict its count to active employees. -/
def spec_enrolled_active (emps : List EmployeeRow) (enr : List EnrollmentRow) : Nat :=
  ((((emps.filter (fun e => decide (e.employment_status = "Active"))).map
    (fun e => e.employee_id)).dedup).filter
      (fun eid => hasEnrolledRow enr eid)).length

/-- The overdue condition in the wording of the specification: the
    election deadline exists and lies strictly before the current date,
    and the status is not Enrolled. -/
def specOverdue (today : Int) (r : EnrollmentRow) : Prop :=
  (∃ d, r.election_deadline = some d ∧ d < today) ∧
    r.enrollment_status ≠ "Enrolled"

/-
  Concrete inputs used by scenario theorems, counterexamples and
  witnesses.
-/

/-- The single active employee of the scenario of claim C7. -/
def scenarioEmployee : EmployeeRow :=
  ⟨1, "John", "Smith", "user1@example.com", 1, 0, "Active"⟩

/-- The two enrollment rows of the scenario of claim C7: one Enrolled row
    and one Pending row on another plan, both with election deadline
    before day 0. -/
def scenarioEnrollment : List EnrollmentRow :=
  [⟨1, 1, 1, some (-40), some (-10), some 20, "Enrolled"⟩,
   ⟨2, 1, 2, some (-40), some (-10), none, "Pending"⟩]

/-- Employees table with one Active and one Inactive employee. -/
def empsMixed : List EmployeeRow :=
  [⟨1, "Jane", "Brown", "user1@example.com", 1, 0, "Active"⟩,
   ⟨2, "John", "Jones", "user2@example.com", 1, 0, "Inactive"⟩]

/-- Enrollment table whose only Enrolled row belongs to the Inactive
    employee 2. -/
def enrInactiveEnrolled : List EnrollmentRow :=
  [⟨1, 2, 1, some 0, some 10, some 0, "Enrolled"⟩]

/-- Departments table with department A (with employees) and department B
    (without). -/
def deptsAB : List DepartmentRow := [⟨1, "A"⟩, ⟨2, "B"⟩]

/-- Three employees, all in department A. -/
def empsA3 : List EmployeeRow :=
  [⟨1, "Emily", "Davis", "user1@example.com", 1, 0, "Active"⟩,
   ⟨2, "James", "Smith", "user2@example.com", 1, 0, "Active"⟩,
   ⟨3, "Lisa", "Miller", "user3@example.com", 1, 0, "Active"⟩]

/-- Enrollment table where only employee 1 is Enrolled. -/
def enrOneOfThree : List EnrollmentRow :=
  [⟨1, 1, 1, some 0, some 10, some 0, "Enrolled"⟩]

/-- Enrollment table with one row of each status. -/
def enrOneEach : List EnrollmentRow :=
  [⟨1, 1, 1, some 0, some 10, some 0, "Enrolled"⟩,
   ⟨2, 1, 2, some 0, some 10, none, "Pending"⟩,
   ⟨3, 2, 1, some 0, some 10, none, "Declined"⟩]

/-- Exceptions table with a single Open row. -/
def excOpenA : List ExceptionRow :=
  [⟨1, 1, "Missed Enrollment", some 0, "High", "Open", none⟩]

/-- Another exceptions table with a single Open row, with all other
    fields different. -/
def excOpenB : List ExceptionRow :=
  [⟨2, 2, "Late Election", some 5, "Low", "Open", none⟩]

/-- An exception row whose resolution status is neither Open nor
    Resolved. -/
def excOtherRow : ExceptionRow :=
  ⟨3, 3, "Incorrect Data", some 1, "Low", "InProgress", none⟩

/-- An enrollment row without an election deadline. -/
def enrNoDeadlineRow : EnrollmentRow :=
  ⟨1, 1, 1, some 0, none, none, "Pending"⟩

/-- An enrollment table mixing rows with and without deadlines. -/
def enrMixedDeadlines : List EnrollmentRow :=
  [⟨1, 1, 1, some 0, none, none, "Pending"⟩,
   ⟨2, 1, 2, some 0, some (-5), none, "Pending"⟩,
   ⟨3, 2, 1, some 0, some 5, some 10, "Enrolled"⟩]

/-
  Helper lemmas.
-/

/-- Counting distinct enrolled employee ids by filtering first equals
    counting the distinct ids that have at least one Enrolled row. -/
lemma enrolled_unique_eq_distinct_with_row (enr : List EnrollmentRow) :
    enrolled_unique enr =
      (((enr.map (fun r => r.employee_id)).dedup).filter
        (fun eid => hasEnrolledRow enr eid)).length := by
  have hnd : (((enr.map (fun r => r.employee_id)).dedup).filter
      (fun eid => hasEnrolledRow enr eid)).Nodup :=
    (List.nodup_dedup _).filter _
  rw [enrolled_unique, ← List.card_toFinset, ← List.toFinset_card_of_nodup hnd]
  congr 1
  ext a
  simp only [List.mem_toFinset, List.mem_map, List.mem_filter, List.mem_dedup,
    hasEnrolledRow, List.any_eq_true, decide_eq_true_eq]
  constructor
  · rintro ⟨r, ⟨hr, hst⟩, rfl⟩
    exact ⟨⟨r, hr, rfl⟩, r, hr, rfl, hst⟩
  · rintro ⟨-, r, hr, rfl, hst⟩
    exact ⟨r, ⟨hr, hst⟩, rfl⟩

/-- Rounding to two decimals preserves nonnegativity. -/
lemma round2_nonneg {q : ℚ} (h0 : 0 ≤ q) : 0 ≤ round2 q := by
  rw [round2]
  have h : (0 : ℤ) ≤ round (q * 100) := by
    rw [round_eq]
    exact Int.floor_nonneg.mpr (by linarith)
  have h2 : (0 : ℚ) ≤ ((round (q * 100) : ℤ) : ℚ) := by exact_mod_cast h
  linarith

/-- Rounding to two decimals preserves the upper bound 100. -/
lemma round2_le_100 {q : ℚ} (h100 : q ≤ 100) : round2 q ≤ 100 := by
  rw [round2]
  have h : round (q * 100) ≤ 10000 := by
    rw [round_eq]
    have hle : q * 100 + 1 / 2 ≤ 10000 + 1 / 2 := by linarith
    calc ⌊q * 100 + 1 / 2⌋ ≤ ⌊(10000 : ℚ) + 1 / 2⌋ := Int.floor_le_floor hle
      _ = 10000 := by norm_num
  have h2 : ((round (q * 100) : ℤ) : ℚ) ≤ 10000 := by exact_mod_cast h
  linarith

/-- Within a department the distinct enrolled-employee count never
    exceeds the distinct employee count. -/
lemma dept_enrolled_le_total (name : String) (depts : List DepartmentRow)
    (emps : List EmployeeRow) (enr : List EnrollmentRow) :
    dept_enrolled name depts emps enr ≤ dept_total name depts emps :=
  List.length_filter_le _ _

/-- Evaluation of the department overview rate of department A of the
    concrete three-employee table: one of three employees enrolled, so
    the stored, rounded rate is 33.33 percent. -/
lemma deptA_rate_eval :
    dept_enrollment_rate "A" deptsAB empsA3 enrOneOfThree = some (3333 / 100) := by
  have h1 : dept_total "A" deptsAB empsA3 = 3 := by decide
  have h2 : dept_enrolled "A" deptsAB empsA3 enrOneOfThree = 1 := by decide
  rw [dept_enrollment_rate, h1, h2]
  norm_num [round2, round_eq]

/-
  Claim theorems.
-/

/-- Claim C1, counterexample: on a table whose only Enrolled row belongs
    to an Inactive employee, the program computes enrollment_rate = 100,
    while the formula of the claim (distinct ACTIVE employees with an
    Enrolled row over active employees, times 100) gives 0. -/
theorem c1_counterexample :
    enrollment_rate empsMixed enrInactiveEnrolled = 100 ∧
    spec_enrolled_active empsMixed enrInactiveEnrolled = 0 ∧
    (spec_enrolled_active empsMixed enrInactiveEnrolled : ℚ) /
      (active_employees empsMixed : ℚ) * 100 = 0 := by
  refine ⟨?_, by decide, ?_⟩
  · have h1 : enrolled_unique enrInactiveEnrolled = 1 := by decide
    have h2 : active_employees empsMixed = 1 := by decide
    rw [enrollment_rate, h1, h2]
    norm_num
  · have h : spec_enrolled_active empsMixed enrInactiveEnrolled = 0 := by decide
    rw [h]
    norm_num

/-- Claim C1 as amended: the KPI enrollment_rate equals the number of
    distinct employee ids having at least one Enrolled enrollment row --
    counted over the whole enrollment table, regardless of whether those
    ids belong to active employees -- divided by the number of active
    employees, times 100; and it is 0, with no division error, when there
    are no active employees. -/
theorem c1_amended_enrollment_rate (emps : List EmployeeRow)
    (enr : List EnrollmentRow) :
    enrollment_rate emps enr =
      if active_employees emps = 0 then 0
      else (((((enr.map (fun r => r.employee_id)).dedup).filter
          (fun eid => hasEnrolledRow enr eid)).length : ℕ) : ℚ) /
        (active_employees emps : ℚ) * 100 := by
  rw [enrollment_rate, ← enrolled_unique_eq_distinct_with_row]
  by_cases h : active_employees emps = 0
  · simp [h]
  · simp [h]

/-- Claim C2, counterexample: department B has no employees, and its
    enrollment_rate is NULL (none), not 0; and for department A with one
    of three employees enrolled, the stored rate is the rounded 33.33,
    not the exact quotient 100/3. -/
theorem c2_counterexample :
    dept_enrollment_rate "B" deptsAB empsA3 enrOneOfThree = none ∧
    dept_enrollment_rate "B" deptsAB empsA3 enrOneOfThree ≠ some 0 ∧
    dept_enrollment_rate "A" deptsAB empsA3 enrOneOfThree = some (3333 / 100) ∧
    (3333 / 100 : ℚ) ≠ (dept_enrolled "A" deptsAB empsA3 enrOneOfThree : ℚ) *
      100 / (dept_total "A" deptsAB empsA3 : ℚ) := by
  have hB : dept_total "B" deptsAB empsA3 = 0 := by decide
  have hnone : dept_enrollment_rate "B" deptsAB empsA3 enrOneOfThree = none := by
    rw [dept_enrollment_rate, hB]
    simp
  refine ⟨hnone, by rw [hnone]; simp, deptA_rate_eval, ?_⟩
  have h1 : dept_enrolled "A" deptsAB empsA3 enrOneOfThree = 1 := by decide
  have h2 : dept_total "A" deptsAB empsA3 = 3 := by decide
  rw [h1, h2]
  norm_num

/-- Claim C2 as amended: in the department overview, a department whose
    distinct employee count is 0 gets a NULL enrollment_rate; a
    department with employees gets the quotient enrolled over total times
    100 rounded to two decimals; and every non-NULL enrollment_rate lies
    between 0 and 100. -/
theorem c2_amended_dept_rate (name : String) (depts : List DepartmentRow)
    (emps : List EmployeeRow) (enr : List EnrollmentRow) :
    (dept_total name depts emps = 0 →
      dept_enrollment_rate name depts emps enr = none) ∧
    (dept_total name depts emps ≠ 0 →
      dept_enrollment_rate name depts emps enr =
        some (round2 ((dept_enrolled name depts emps enr : ℚ) * 100 /
          (dept_total name depts emps : ℚ)))) ∧
    (∀ q : ℚ, dept_enrollment_rate name depts emps enr = some q →
      0 ≤ q ∧ q ≤ 100) := by
  refine ⟨fun h => by rw [dept_enrollment_rate, if_pos h],
    fun h => by rw [dept_enrollment_rate, if_neg h], fun q hq => ?_⟩
  rw [dept_enrollment_rate] at hq
  by_cases h : dept_total name depts emps = 0
  · rw [if_pos h] at hq
    exact absurd hq (by simp)
  · rw [if_neg h] at hq
    have hq2 : round2 ((dept_enrolled name depts emps enr : ℚ) * 100 /
        (dept_total name depts emps : ℚ)) = q := by
      injection hq
    have htpos : (0 : ℚ) < (dept_total name depts emps : ℚ) := by
      exact_mod_cast Nat.pos_of_ne_zero h
    have hx0 : (0 : ℚ) ≤ (dept_enrolled name depts emps enr : ℚ) * 100 /
        (dept_total name depts emps : ℚ) :=
      div_nonneg (mul_nonneg (Nat.cast_nonneg _) (by norm_num)) (le_of_lt htpos)
    have hle : (dept_enrolled name depts emps enr : ℚ) ≤
        (dept_total name depts emps : ℚ) := by
      exact_mod_cast dept_enrolled_le_total name depts emps enr
    have hx100 : (dept_enrolled name depts emps enr : ℚ) * 100 /
        (dept_total name depts emps : ℚ) ≤ 100 := by
      rw [div_le_iff₀ htpos]
      nlinarith
    exact hq2 ▸ ⟨round2_nonneg hx0, round2_le_100 hx100⟩

/-- Claim C2 as amended, witness: the amended theorem applied to the
    concrete departments A (three employees, one enrolled) and B (no
    employees). -/
theorem c2_amended_dept_rate_witness :
    dept_enrollment_rate "B" deptsAB empsA3 enrOneOfThree = none ∧
    dept_enrollment_rate "A" deptsAB empsA3 enrOneOfThree =
      some (round2 ((dept_enrolled "A" deptsAB empsA3 enrOneOfThree : ℚ) * 100 /
        (dept_total "A" deptsAB empsA3 : ℚ))) ∧
    0 ≤ (3333 / 100 : ℚ) ∧ (3333 / 100 : ℚ) ≤ 100 :=
  ⟨(c2_amended_dept_rate "B" deptsAB empsA3 enrOneOfThree).1 (by decide),
   (c2_amended_dept_rate "A" deptsAB empsA3 enrOneOfThree).2.1 (by decide),
   ((c2_amended_dept_rate "A" deptsAB empsA3 enrOneOfThree).2.2
     (3333 / 100) deptA_rate_eval).1,
   ((c2_amended_dept_rate "A" deptsAB empsA3 enrOneOfThree).2.2
     (3333 / 100) deptA_rate_eval).2⟩

/-- Claim C3 (confirmed): an enrollment row counts as overdue exactly
    when its election deadline exists and lies strictly before the
    current date and its status is not Enrolled, and the KPI
    deadline_adherence_rate equals (total rows minus overdue rows) over
    total rows times 100, with the empty table giving 0. -/
theorem c3_deadline_adherence (today : Int) (enr : List EnrollmentRow) :
    (∀ r : EnrollmentRow, isOverdue today r = true ↔ specOverdue today r) ∧
    deadline_adherence_rate today enr =
      (if enr.length = 0 then 0
       else ((enr.length : ℚ) - (overdue_count today enr : ℚ)) /
         (enr.length : ℚ) * 100) := by
  constructor
  · intro r
    rw [isOverdue, specOverdue]
    cases hd : r.election_deadline with
    | none => simp [hd]
    | some d => simp [hd]
  · rw [deadline_adherence_rate]
    by_cases h : enr.length = 0 <;> simp [h]

/-- Claim C4 (confirmed): overall_compliance_score is the unweighted
    arithmetic mean of the three component rates, and therefore lies
    between their minimum and their maximum, for every input dataset. -/
theorem c4_overall_score_mean_bounds (emps : List EmployeeRow)
    (enr : List EnrollmentRow) (exc : List ExceptionRow) (today : Int) :
    overall_compliance_score emps enr exc today =
      (enrollment_rate emps enr + exception_resolution_rate exc +
        deadline_adherence_rate today enr) / 3 ∧
    min (min (enrollment_rate emps enr) (exception_resolution_rate exc))
        (deadline_adherence_rate today enr) ≤
      overall_compliance_score emps enr exc today ∧
    overall_compliance_score emps enr exc today ≤
      max (max (enrollment_rate emps enr) (exception_resolution_rate exc))
        (deadline_adherence_rate today enr) := by
  refine ⟨rfl, ?_, ?_⟩ <;>
  · set a := enrollment_rate emps enr
    set b := exception_resolution_rate exc
    set c := deadline_adherence_rate today enr
    have hmin1 : min (min a b) c ≤ a := le_trans (min_le_left _ _) (min_le_left _ _)
    have hmin2 : min (min a b) c ≤ b := le_trans (min_le_left _ _) (min_le_right _ _)
    have hmin3 : min (min a b) c ≤ c := min_le_right _ _
    have hmax1 : a ≤ max (max a b) c := le_trans (le_max_left _ _) (le_max_left _ _)
    have hmax2 : b ≤ max (max a b) c := le_trans (le_max_right _ _) (le_max_left _ _)
    have hmax3 : c ≤ max (max a b) c := le_max_right _ _
    rw [overall_compliance_score]
    linarith

/-- Claim C5 (confirmed): exception_resolution_rate equals resolved over
    (open plus resolved) times 100, and 0 with no division error when
    that denominator is 0; multiplying the rate by the denominator always
    recovers resolved times 100. -/
theorem c5_exception_resolution_rate (exc : List ExceptionRow) :
    exception_resolution_rate exc =
      (if open_ex exc + resolved_ex exc = 0 then 0
       else (resolved_ex exc : ℚ) /
         ((open_ex exc + resolved_ex exc : ℕ) : ℚ) * 100) ∧
    exception_resolution_rate exc * ((open_ex exc + resolved_ex exc : ℕ) : ℚ) =
      (resolved_ex exc : ℚ) * 100 := by
  rw [exception_resolution_rate]
  by_cases h : open_ex exc + resolved_ex exc = 0
  · have hr : resolved_ex exc = 0 := by omega
    simp [h, hr]
  · have hpos : (0 : ℚ) < ((open_ex exc + resolved_ex exc : ℕ) : ℚ) := by
      exact_mod_cast Nat.pos_of_ne_zero h
    constructor
    · simp [h]
    · have hs : ((open_ex exc + resolved_ex exc : ℕ) : ℚ) ≠ 0 := ne_of_gt hpos
      rw [if_pos h, div_mul_eq_mul_div, div_mul_cancel₀ _ hs]

/-- Claim C6 (confirmed): when every enrollment row carries one of the
    statuses Enrolled, Pending or Declined, the KPI pending_enrollments
    plus the status-summary counts for Enrolled and Declined equals the
    number of enrollment rows. -/
theorem c6_status_partition (enr : List EnrollmentRow)
    (h : ∀ r ∈ enr, r.enrollment_status = "Enrolled" ∨
      r.enrollment_status = "Pending" ∨ r.enrollment_status = "Declined") :
    pendings enr + statusCount enr "Enrolled" + statusCount enr "Declined" =
      enr.length := by
  induction enr with
  | nil => rfl
  | cons r t ih =>
    have hr := h r (List.mem_cons_self r t)
    have ih2 := ih (fun x hx => h x (List.mem_cons_of_mem r hx))
    simp only [pendings, statusCount] at ih2 ⊢
    simp only [List.countP_cons, List.length_cons]
    rcases hr with hst | hst | hst <;> simp [hst] <;> omega

/-- Claim C6, witness: the partition equation at a concrete table with
    one row of each status. -/
theorem c6_status_partition_witness :
    (∀ r ∈ enrOneEach, r.enrollment_status = "Enrolled" ∨
      r.enrollment_status = "Pending" ∨ r.enrollment_status = "Declined") ∧
    pendings enrOneEach + statusCount enrOneEach "Enrolled" +
      statusCount enrOneEach "Declined" = enrOneEach.length :=
  ⟨by decide, c6_status_partition enrOneEach (by decide)⟩

/-- Claim C7 (confirmed): for the scenario with one active employee
    holding one Enrolled row and one Pending row on another plan with a
    past election deadline, enrollment_rate is 100 and
    deadline_adherence_rate is 50. -/
theorem c7_scenario_rates :
    enrollment_rate [scenarioEmployee] scenarioEnrollment = 100 ∧
    deadline_adherence_rate 0 scenarioEnrollment = 50 := by
  constructor
  · have h1 : enrolled_unique scenarioEnrollment = 1 := by decide
    have h2 : active_employees [scenarioEmployee] = 1 := by decide
    rw [enrollment_rate, h1, h2]
    norm_num
  · have h1 : overdue_count 0 scenarioEnrollment = 1 := by decide
    have h2 : scenarioEnrollment.length = 2 := by decide
    rw [deadline_adherence_rate, h1, h2]
    norm_num

/-- Claim C8, counterexample: two runs of the data provider in synthesize
    mode that share the seed-determined number stream but observe
    different current dates produce different enrollment tables (already
    the enrollment_date column differs), so the six tables are not
    identical across runs. -/
theorem c8_counterexample :
    (synthesize (fun _ => 0) 0).enrollment.map (fun r => r.enrollment_date) ≠
      (synthesize (fun _ => 0) 1).enrollment.map (fun r => r.enrollment_date) ∧
    synthesize (fun _ => 0) 0 ≠ synthesize (fun _ => 0) 1 := by
  have hmap : (synthesize (fun _ => 0) 0).enrollment.map
      (fun r => r.enrollment_date) ≠
      (synthesize (fun _ => 0) 1).enrollment.map (fun r => r.enrollment_date) := by
    set_option maxRecDepth 100000 in decide
  exact ⟨hmap, fun h => hmap (by rw [h])⟩

/-- Claim C8 as amended: generation is deterministic given the seed and
    the observed current date.  Two runs with the same seed always
    produce identical employees, departments and plans tables, and runs
    that also observe the same current date produce all six tables
    identical; runs at different dates may differ in the date-bearing
    columns of the enrollment, eligibility and exceptions tables. -/
theorem c8_amended_determinism (stream : Nat → Nat) (now₁ now₂ : Int) :
    (synthesize stream now₁).employees = (synthesize stream now₂).employees ∧
    (synthesize stream now₁).departments = (synthesize stream now₂).departments ∧
    (synthesize stream now₁).plans = (synthesize stream now₂).plans ∧
    (now₁ = now₂ → synthesize stream now₁ = synthesize stream now₂) :=
  ⟨rfl, rfl, rfl, fun h => by rw [h]⟩

/-- Claim C8 as amended, witness: the amended theorem applied to the
    constant-zero stream at the concrete dates 3 and 7. -/
theorem c8_amended_determinism_witness :
    (synthesize (fun _ => 0) 3).employees = (synthesize (fun _ => 0) 7).employees ∧
    synthesize (fun _ => 0) 3 = synthesize (fun _ => 0) 3 :=
  ⟨(c8_amended_determinism (fun _ => 0) 3 7).1,
   (c8_amended_determinism (fun _ => 0) 3 3).2.2.2 rfl⟩

/-- Claim C9 (confirmed): an enrollment row with a missing election
    deadline is never overdue, whatever its status, so the overdue count
    only ever counts rows that carry a deadline, and rows with missing
    deadlines always land on the on-time side of
    deadline_adherence_rate. -/
theorem c9_missing_deadline_on_time (today : Int) (enr : List EnrollmentRow) :
    (∀ r : EnrollmentRow, r.election_deadline = none →
      isOverdue today r = false) ∧
    overdue_count today enr =
      overdue_count today (enr.filter (fun r => r.election_deadline.isSome)) := by
  constructor
  · intro r hr
    rw [isOverdue, hr]
    simp
  · rw [overdue_count, overdue_count, List.countP_filter]
    apply List.countP_congr
    intro r _
    cases hd : r.election_deadline with
    | none => simp [isOverdue, hd]
    | some d => simp [isOverdue, hd]

/-- Claim C9, witness: a concrete Pending row without a deadline is not
    overdue, and on a concrete mixed table the overdue count ignores the
    deadline-free rows. -/
theorem c9_missing_deadline_on_time_witness :
    isOverdue 0 enrNoDeadlineRow = false ∧
    overdue_count 0 enrMixedDeadlines =
      overdue_count 0 (enrMixedDeadlines.filter
        (fun r => r.election_deadline.isSome)) :=
  ⟨(c9_missing_deadline_on_time 0 enrMixedDeadlines).1 enrNoDeadlineRow rfl,
   (c9_missing_deadline_on_time 0 enrMixedDeadlines).2⟩

/-- Claim C10 (confirmed): exception rows whose resolution status is
    neither Open nor Resolved change neither the Open count, the Resolved
    count, nor the rate, and exception_resolution_rate depends on an
    exceptions table only through its Open and Resolved counts. -/
theorem c10_rate_from_open_resolved_only (exc₁ exc₂ : List ExceptionRow)
    (r : ExceptionRow)
    (h1 : open_ex exc₁ = open_ex exc₂)
    (h2 : resolved_ex exc₁ = resolved_ex exc₂)
    (h3 : r.resolution_status ≠ "Open")
    (h4 : r.resolution_status ≠ "Resolved") :
    exception_resolution_rate exc₁ = exception_resolution_rate exc₂ ∧
    open_ex (r :: exc₁) = open_ex exc₁ ∧
    resolved_ex (r :: exc₁) = resolved_ex exc₁ ∧
    exception_resolution_rate (r :: exc₁) = exception_resolution_rate exc₁ := by
  have ho : open_ex (r :: exc₁) = open_ex exc₁ := by
    rw [open_ex, open_ex, List.countP_cons]
    simp [h3]
  have hres : resolved_ex (r :: exc₁) = resolved_ex exc₁ := by
    rw [resolved_ex, resolved_ex, List.countP_cons]
    simp [h4]
  refine ⟨?_, ho, hres, ?_⟩
  · rw [exception_resolution_rate, exception_resolution_rate, h1, h2]
  · rw [exception_resolution_rate, exception_resolution_rate, ho, hres]

/-- Claim C10, witness: two concrete one-row tables with equal Open and
    Resolved counts get the same rate, and adding a concrete InProgress
    row leaves the rate unchanged. -/
theorem c10_rate_from_open_resolved_only_witness :
    exception_resolution_rate excOpenA = exception_resolution_rate excOpenB ∧
    exception_resolution_rate (excOtherRow :: excOpenA) =
      exception_resolution_rate excOpenA :=
  ⟨(c10_rate_from_open_resolved_only excOpenA excOpenB excOtherRow
      (by decide) (by decide) (by decide) (by decide)).1,
   (c10_rate_from_open_resolved_only excOpenA excOpenB excOtherRow
      (by decide) (by decide) (by decide) (by decide)).2.2.2⟩
